import Mathlib

/-
Verification of the Indices_Calculator application (src/main_code.py).

The embedding models numeric 2-D arrays as lists of lists of rationals
(the code widens integer bands to float before arithmetic; we idealise
IEEE floats as exact rationals), and each Qt menu handler as a function
from an explicit session state (the fields initialised in
MainWindow.__init__) and the dialog inputs it reads, to a result record
holding the new state, the ordered list of observable effects (dialogs
shown, library calls made, files written) and the Python exception, if
any, that escapes the handler unhandled.

Python semantics that matter and are modelled explicitly:
  - bool() of a pandas/geopandas (Geo)DataFrame raises
    ValueError("The truth value of a DataFrame is ambiguous. ...");
    main_code.py line 159 evaluates "not self.gdf" on the loaded
    GeoDataFrame outside the try block.
  - None.empty raises AttributeError; main_code.py line 135 evaluates
    "self.gdf.empty" when self.gdf is None (hasattr(self, "gdf") is
    always True because __init__ sets the attribute), outside the try.
  - rasterio DatasetReader and psycopg2 connections define no __bool__,
    so an open handle is truthy.
  - rasterio DatasetReader.read(i) raises IndexError for i outside
    1..count; numpy where() never raises on zero denominators.
-/

namespace IndicesCalc

/-! ## Index math (main_code.py lines 20-33) -/

/-- A 2-D numeric array: a list of rows of rationals. -/
abbrev Array2 := List (List ℚ)

/-- Element-wise combination of two arrays, the shape of numpy
element-wise arithmetic on equal-shaped inputs. -/
def map2 (f : ℚ → ℚ → ℚ) (x y : Array2) : Array2 :=
  List.zipWith (fun r s => List.zipWith f r s) x y

/-- main_code.py lines 20-23: astype(float) is the identity here, then
np.where((nir + red) == 0, 0, (nir - red) / (nir + red)) element-wise. -/
def calculate_ndvi (red nir : Array2) : Array2 :=
  map2 (fun r n => if n + r = 0 then 0 else (n - r) / (n + r)) red nir

/-- main_code.py lines 25-28:
np.where((green + nir) == 0, 0, (green - nir) / (green + nir)). -/
def calculate_ndwi (green nir : Array2) : Array2 :=
  map2 (fun g n => if g + n = 0 then 0 else (g - n) / (g + n)) green nir

/-- main_code.py lines 30-33:
np.where((swir + nir) == 0, 0, (swir - nir) / (swir + nir)). -/
def calculate_ndbi (swir nir : Array2) : Array2 :=
  map2 (fun s n => if s + n = 0 then 0 else (s - n) / (s + n)) swir nir

/-- Two arrays have the same shape: equal row counts and equal row
lengths position by position. -/
def sameShape (x y : Array2) : Prop :=
  x.map List.length = y.map List.length

instance (x y : Array2) : Decidable (sameShape x y) := by
  unfold sameShape; infer_instance

/-- Pixel access with defaults, used to state element-wise laws; the
hypotheses of the theorems keep the indices in bounds. -/
def px (a : Array2) (i j : Nat) : ℚ :=
  (a.getD i []).getD j 0

/-! ## Session state model (MainWindow fields, main_code.py lines 42-48) -/

/-- Coordinate reference system, kept abstract: the handlers only copy
and compare it. -/
structure Crs where
  cid : Nat
deriving DecidableEq

/-- Affine geotransform, kept abstract: the handlers only copy it. -/
structure GeoTransform where
  tid : Nat
deriving DecidableEq

/-- A vector geometry. The application only queries validity and
applies buffering, so a geometry is an identifier, a validity flag and
the list of buffer distances applied so far (shapely buffer is modelled
freely: each call produces a new, distinct geometry). -/
structure Geom where
  gid : Nat
  is_valid : Bool
  bufferedBy : List ℚ
deriving DecidableEq

/-- shapely / geopandas buffer at distance d. -/
def Geom.buffer (g : Geom) (d : ℚ) : Geom :=
  { g with bufferedBy := g.bufferedBy ++ [d] }

/-- A GeoDataFrame: a CRS and a geometry column. -/
structure Gdf where
  crs : Crs
  geoms : List Geom
deriving DecidableEq

/-- An open rasterio dataset: CRS, geotransform and band data
(count = bands.length). -/
structure RasterData where
  crs : Crs
  transform : GeoTransform
  bands : List Array2
deriving DecidableEq

/-- A Python exception escaping or caught inside a handler. -/
inductive PyErr
  | attributeError (msg : String)
  | valueError (msg : String)
  | indexError (msg : String)
  | nameError (msg : String)
deriving DecidableEq

/-- rasterio DatasetReader.read(i): bands are numbered 1..count and any
other index raises IndexError. -/
def RasterData.read (r : RasterData) (i : Int) : Except PyErr Array2 :=
  if 1 ≤ i ∧ i ≤ (r.bands.length : Int) then
    .ok (r.bands.getD (i.toNat - 1) [])
  else
    .error (.indexError "band index out of range")

/-- The value stored in self.last_displayed_data: a numpy array or a
GeoDataFrame. -/
inductive PyData
  | arr (a : Array2)
  | gdfData (g : Gdf)
deriving DecidableEq

/-- Observable effects of a handler, in program order: modal dialogs,
geometry/raster library calls, plots and file writes. -/
inductive Effect
  | errorDialog (msg : String)
  | infoDialog (msg : String)
  | libBufferCall (d : ℚ)
  | libToCrsCall (c : Crs)
  | libMaskCall (shapes : List Geom)
  | libReadBand (i : Int)
  | showPlot
  | fileWriteShapefile (path : String) (g : Gdf)
  | fileWriteGeoTiff (path : String) (count : Nat) (crs : Crs)
      (transform : GeoTransform) (data : Array2)
deriving DecidableEq

/-- True exactly on the effects that write a file to disk. -/
def Effect.writesFile : Effect → Bool
  | .fileWriteShapefile _ _ => true
  | .fileWriteGeoTiff _ _ _ _ _ => true
  | _ => false

/-- True exactly on the effects that call into the geometry library
(buffering, reprojection, masking). -/
def Effect.isGeometryLibCall : Effect → Bool
  | .libBufferCall _ => true
  | .libToCrsCall _ => true
  | .libMaskCall _ => true
  | _ => false

/-- True exactly on the effects that call the raster library band
read. -/
def Effect.isLibRead : Effect → Bool
  | .libReadBand _ => true
  | _ => false

/-- The mutable fields initialised in MainWindow.__init__
(main_code.py lines 42-48). -/
structure SessionState where
  raster_data : Option RasterData
  gdf : Option Gdf
  shapefile_path : Option String
  db_connection : Option Nat
  last_displayed_data : Option PyData
  last_displayed_type : Option String
deriving DecidableEq

/-- The state right after __init__: every field None. -/
def initState : SessionState :=
  { raster_data := none, gdf := none, shapefile_path := none,
    db_connection := none, last_displayed_data := none,
    last_displayed_type := none }

/-- Result of running one handler: the state it leaves behind, the
ordered effects it produced, and the exception escaping it unhandled,
if any. -/
structure HResult where
  state : SessionState
  effects : List Effect
  raised : Option PyErr
deriving DecidableEq

/-! ## Handlers (main_code.py lines 114-353)

Dialog inputs (QInputDialog / QFileDialog results) are passed as
arguments; each handler is the direct translation of its Python body,
including the evaluation order of the precondition checks. -/

/-- MainWindow.upload_shapefile (lines 124-132): file dialog result and
the outcome of gpd.read_file are inputs. -/
def upload_shapefile (s : SessionState) (file_name : Option String)
    (parsed : Except String Gdf) : HResult :=
  match file_name with
  | none => { state := s, effects := [], raised := none }
  | some fn =>
    match parsed with
    | .ok g =>
        { state := { s with gdf := some g, shapefile_path := some fn },
          effects := [.infoDialog "Shapefile uploaded successfully!"],
          raised := none }
    | .error e =>
        { state := s,
          effects := [.errorDialog ("Error loading shapefile: " ++ e)],
          raised := none }

/-- MainWindow.buffer_tool (lines 134-157). Line 135 reads
"if not hasattr(self, ..gdf..) or self.gdf.empty:"; hasattr is always
True because __init__ sets the field, so with self.gdf = None Python
evaluates None.empty and raises AttributeError outside the try block:
the exception escapes the handler unhandled. With a loaded layer, an
empty layer or an invalid distance is rejected with a dialog; otherwise
the handler buffers a COPY of the layer (line 145: self.gdf.copy()) and
stores the copy as the displayed artifact. self.gdf itself is never
reassigned or mutated. -/
def buffer_tool (s : SessionState) (distance : ℚ) (ok : Bool) : HResult :=
  match s.gdf with
  | none =>
      { state := s, effects := [],
        raised := some (.attributeError
          "NoneType object has no attribute empty") }
  | some g =>
      if g.geoms.isEmpty then
        { state := s,
          effects := [.errorDialog "Please upload a shapefile first."],
          raised := none }
      else if ok = false ∨ distance ≤ 0 then
        { state := s,
          effects := [.errorDialog "Invalid buffer distance."],
          raised := none }
      else
        let buffered : Gdf :=
          { g with geoms := g.geoms.map (fun gm => gm.buffer distance) }
        { state := { s with
            last_displayed_data := some (.gdfData buffered),
            last_displayed_type := some "shapefile" },
          effects := [.libBufferCall distance, .showPlot],
          raised := none }

/-- MainWindow.clip_raster (lines 158-177). Line 159 reads
"if not self.raster_data or not self.gdf:". A rasterio dataset has no
bool override, so with a raster loaded the right operand is evaluated;
bool() of a (Geo)DataFrame raises ValueError, and the check is outside
the try block, so with both layers loaded the handler raises unhandled
and the body (to_crs, validity filter, mask, artifact update) is
unreachable. With either layer missing, "not None" is True and the
precondition dialog is shown. -/
def clip_raster (s : SessionState) : HResult :=
  match s.raster_data with
  | none =>
      { state := s,
        effects := [.errorDialog "Please upload raster and shapefile first."],
        raised := none }
  | some _ =>
    match s.gdf with
    | none =>
        { state := s,
          effects := [.errorDialog "Please upload raster and shapefile first."],
          raised := none }
    | some _ =>
        { state := s, effects := [],
          raised := some (.valueError
            "The truth value of a DataFrame is ambiguous.") }

/-- Shared shape of the three branches of MainWindow.calculate_index
(lines 190-201): read band b1, read band b2, apply the index function;
a read failure is caught by the enclosing except and reported. -/
def runIndexBranch (s : SessionState) (r : RasterData) (t : String)
    (b1 b2 : Int) (f : Array2 → Array2 → Array2) : HResult :=
  match r.read b1 with
  | .error _ =>
      { state := s,
        effects := [.libReadBand b1,
          .errorDialog ("Error calculating " ++ t)],
        raised := none }
  | .ok x =>
    match r.read b2 with
    | .error _ =>
        { state := s,
          effects := [.libReadBand b1, .libReadBand b2,
            .errorDialog ("Error calculating " ++ t)],
          raised := none }
    | .ok y =>
        { state := { s with
            last_displayed_data := some (.arr (f x y)),
            last_displayed_type := some "raster" },
          effects := [.libReadBand b1, .libReadBand b2, .showPlot],
          raised := none }

/-- MainWindow.calculate_index (lines 179-208). The four band prompts
are inputs; none of them is validated before the branch reads the two
relevant bands straight from the library. Any exception inside the try
(IndexError from read, NameError for an unknown index type at line 203)
is caught and shown as a dialog. -/
def calculate_index (s : SessionState) (index_type : String)
    (red_band nir_band green_band swir_band : Int) : HResult :=
  match s.raster_data with
  | none =>
      { state := s,
        effects := [.errorDialog "Please upload a raster first."],
        raised := none }
  | some r =>
      if index_type = "NDVI" then
        runIndexBranch s r index_type red_band nir_band calculate_ndvi
      else if index_type = "NDWI" then
        runIndexBranch s r index_type green_band nir_band calculate_ndwi
      else if index_type = "NDBI" then
        runIndexBranch s r index_type swir_band nir_band calculate_ndbi
      else
        { state := s,
          effects := [.errorDialog ("Error calculating " ++ index_type)],
          raised := none }

/-- MainWindow.display_raster (lines 210-235): a non-positive or
cancelled band number is rejected by line 216 before the read; an
out-of-range read raises inside the try and is caught and reported. -/
def display_raster (s : SessionState) (band_index : Int) (ok : Bool) :
    HResult :=
  match s.raster_data with
  | none =>
      { state := s, effects := [.errorDialog "No raster uploaded."],
        raised := none }
  | some r =>
      if ok = false ∨ band_index ≤ 0 then
        { state := s, effects := [.errorDialog "Invalid band number."],
          raised := none }
      else
        match r.read band_index with
        | .error _ =>
            { state := s,
              effects := [.libReadBand band_index,
                .errorDialog "Error displaying raster"],
              raised := none }
        | .ok band =>
            { state := { s with
                last_displayed_data := some (.arr band),
                last_displayed_type := some "raster" },
              effects := [.libReadBand band_index, .showPlot],
              raised := none }

/-- MainWindow.export_displayed_data (lines 325-353). Line 326 guards
with "is None"; a cancelled save dialog only shows an info dialog. A
shapefile-tagged artifact is written with to_file; a raster-tagged
artifact is written as a 1-band GeoTIFF whose crs and transform are
read from self.raster_data (lines 347-348), the ORIGINAL raster, not
anything carried by the artifact (the artifact carries none: line 170
stored only the pixel array). Mismatched tag/data or a missing raster
handle raise AttributeError inside the try and are caught and
reported. -/
def export_displayed_data (s : SessionState) (file_path : Option String) :
    HResult :=
  match s.last_displayed_data with
  | none =>
      { state := s,
        effects := [.errorDialog "No data available to export."],
        raised := none }
  | some d =>
    match file_path with
    | none =>
        { state := s, effects := [.infoDialog "Save operation canceled."],
          raised := none }
    | some fp =>
        if s.last_displayed_type = some "shapefile" then
          match d with
          | .gdfData g =>
              { state := s,
                effects := [.fileWriteShapefile fp g,
                  .infoDialog ("Data exported successfully to " ++ fp)],
                raised := none }
          | .arr _ =>
              { state := s,
                effects := [.errorDialog "Error exporting data"],
                raised := none }
        else if s.last_displayed_type = some "raster" then
          match d, s.raster_data with
          | .arr a, some r =>
              { state := s,
                effects := [.fileWriteGeoTiff fp 1 r.crs r.transform a,
                  .infoDialog ("Data exported successfully to " ++ fp)],
                raised := none }
          | .arr _, none =>
              { state := s,
                effects := [.errorDialog "Error exporting data"],
                raised := none }
          | .gdfData _, _ =>
              { state := s,
                effects := [.errorDialog "Error exporting data"],
                raised := none }
        else
          { state := s,
            effects := [.infoDialog ("Data exported successfully to " ++ fp)],
            raised := none }

/-! ## Concrete sample data for witnesses and counterexamples -/

/-- A sample CRS. -/
def crsA : Crs := ⟨0⟩

/-- A sample geotransform. -/
def tr0 : GeoTransform := ⟨0⟩

/-- A geometrically valid sample geometry. -/
def geomValid : Geom := ⟨0, true, []⟩

/-- A geometrically invalid sample geometry. -/
def geomInvalid : Geom := ⟨1, false, []⟩

/-- A one-feature vector layer with a valid geometry. -/
def gdf0 : Gdf := ⟨crsA, [geomValid]⟩

/-- A vector layer whose only geometry is invalid: zero valid
geometries. -/
def gdfInvalidOnly : Gdf := ⟨crsA, [geomInvalid]⟩

/-- The 2x2 synthetic band from the end-to-end scenario of the spec. -/
def band0 : Array2 := [[1, 2], [3, 0]]

/-- A one-band sample raster. -/
def raster0 : RasterData := ⟨crsA, tr0, [band0]⟩

/-- Session state with both a raster and a shapefile loaded. -/
def bothLoaded : SessionState :=
  { initState with raster_data := some raster0, gdf := some gdf0 }

/-- Session state with only the shapefile loaded. -/
def vectorOnly : SessionState := { initState with gdf := some gdf0 }

/-- Session state with only the raster loaded. -/
def rasterOnly : SessionState := { initState with raster_data := some raster0 }

/-- Raster loaded together with a layer holding zero valid geometries. -/
def rasterAndInvalidVector : SessionState :=
  { initState with raster_data := some raster0, gdf := some gdfInvalidOnly }

/-- Raster loaded and a raster-tagged artifact on display, as after a
successful clip or index computation; the artifact array is smaller
than the raster, as a clip would produce. -/
def rasterArtifactState : SessionState :=
  { initState with
    raster_data := some raster0
    last_displayed_data := some (.arr [[5]])
    last_displayed_type := some "raster" }

/-- gdf0 with every geometry buffered at distance 2: the layer the
buffer handler derives (as a copy) for distance 2. -/
def gdf0Buffered : Gdf :=
  { gdf0 with geoms := gdf0.geoms.map (fun g => g.buffer 2) }

/-! ## Index math lemmas -/

theorem sameShape_length {x y : Array2} (h : sameShape x y) :
    x.length = y.length := by
  have := congrArg List.length h
  simpa using this

theorem zipWith_row_getD (f : ℚ → ℚ → ℚ) (r s : List ℚ) (j : Nat)
    (hlen : r.length = s.length) (hj : j < r.length) :
    (List.zipWith f r s).getD j 0 = f (r.getD j 0) (s.getD j 0) := by
  induction r generalizing s j with
  | nil => cases hj
  | cons a as ih =>
    cases s with
    | nil => simp at hlen
    | cons b bs =>
      cases j with
      | zero => simp
      | succ j =>
        simp only [List.zipWith_cons_cons, List.getD_cons_succ]
        exact ih bs j (by simpa using hlen) (by simpa using hj)

theorem map2_px (f : ℚ → ℚ → ℚ) (x y : Array2) (h : sameShape x y)
    (i j : Nat) (hi : i < x.length) (hj : j < (x.getD i []).length) :
    px (map2 f x y) i j = f (px x i j) (px y i j) := by
  induction x generalizing y i with
  | nil => cases hi
  | cons r rs ih =>
    cases y with
    | nil => simp [sameShape] at h
    | cons s ss =>
      unfold sameShape at h
      simp only [List.map_cons, List.cons.injEq] at h
      cases i with
      | zero =>
        simp only [map2, List.zipWith_cons_cons, px, List.getD_cons_zero]
        exact zipWith_row_getD f r s j h.1 (by simpa [px] using hj)
      | succ i =>
        simp only [map2, List.zipWith_cons_cons, px, List.getD_cons_succ]
        exact ih ss h.2 i (by simpa using hi) (by simpa [px] using hj)

theorem map2_sameShape (f : ℚ → ℚ → ℚ) (x y : Array2) (h : sameShape x y) :
    sameShape (map2 f x y) x := by
  induction x generalizing y with
  | nil => simp [map2, sameShape]
  | cons r rs ih =>
    cases y with
    | nil => simp [sameShape] at h
    | cons s ss =>
      unfold sameShape at h
      simp only [List.map_cons, List.cons.injEq] at h
      unfold map2 sameShape at *
      simp only [List.zipWith_cons_cons, List.map_cons, List.cons.injEq]
      exact ⟨by rw [List.length_zipWith, h.1, Nat.min_self], ih ss h.2⟩

theorem sameShape_row {x y : Array2} (h : sameShape x y) (i : Nat) :
    (x.getD i []).length = (y.getD i []).length := by
  induction x generalizing y i with
  | nil =>
    cases y with
    | nil => rfl
    | cons b bs => simp [sameShape] at h
  | cons a as ih =>
    cases y with
    | nil => simp [sameShape] at h
    | cons b bs =>
      unfold sameShape at h
      simp only [List.map_cons, List.cons.injEq] at h
      cases i with
      | zero => simpa using h.1
      | succ i => simpa using ih h.2 i

/-! ## Frame helper lemmas: no handler reassigns self.gdf -/

theorem buffer_tool_gdf (s : SessionState) (d : ℚ) (ok : Bool) :
    (buffer_tool s d ok).state.gdf = s.gdf := by
  cases hg : s.gdf with
  | none => simp [buffer_tool, hg]
  | some g =>
    by_cases h1 : g.geoms.isEmpty <;>
      by_cases h2 : ok = false ∨ d ≤ 0 <;>
        simp [buffer_tool, hg, h1, h2]

theorem clip_raster_state (s : SessionState) : (clip_raster s).state = s := by
  cases hr : s.raster_data with
  | none => simp [clip_raster, hr]
  | some r =>
    cases hg : s.gdf with
    | none => simp [clip_raster, hr, hg]
    | some g => simp [clip_raster, hr, hg]

theorem runIndexBranch_gdf (s : SessionState) (r : RasterData) (t : String)
    (b1 b2 : Int) (f : Array2 → Array2 → Array2) :
    (runIndexBranch s r t b1 b2 f).state.gdf = s.gdf := by
  cases hb1 : r.read b1 with
  | error e => simp [runIndexBranch, hb1]
  | ok x =>
    cases hb2 : r.read b2 with
    | error e => simp [runIndexBranch, hb1, hb2]
    | ok y => simp [runIndexBranch, hb1, hb2]

theorem calculate_index_gdf (s : SessionState) (t : String)
    (rb nb gb sb : Int) :
    (calculate_index s t rb nb gb sb).state.gdf = s.gdf := by
  cases hr : s.raster_data with
  | none => simp [calculate_index, hr]
  | some r =>
    by_cases h1 : t = "NDVI"
    · simp [calculate_index, hr, h1, runIndexBranch_gdf]
    · by_cases h2 : t = "NDWI"
      · simp [calculate_index, hr, h1, h2, runIndexBranch_gdf]
      · by_cases h3 : t = "NDBI"
        · simp [calculate_index, hr, h1, h2, h3, runIndexBranch_gdf]
        · simp [calculate_index, hr, h1, h2, h3]

theorem display_raster_gdf (s : SessionState) (b : Int) (ok : Bool) :
    (display_raster s b ok).state.gdf = s.gdf := by
  cases hr : s.raster_data with
  | none => simp [display_raster, hr]
  | some r =>
    by_cases h1 : ok = false ∨ b ≤ 0
    · simp [display_raster, hr, h1]
    · cases hread : r.read b with
      | error e => simp [display_raster, hr, h1, hread]
      | ok x => simp [display_raster, hr, h1, hread]

theorem export_state (s : SessionState) (fp : Option String) :
    (export_displayed_data s fp).state = s := by
  cases hd : s.last_displayed_data with
  | none => simp [export_displayed_data, hd]
  | some d =>
    cases fp with
    | none => simp [export_displayed_data, hd]
    | some p =>
      by_cases h1 : s.last_displayed_type = some "shapefile"
      · cases d <;> simp [export_displayed_data, hd, h1]
      · by_cases h2 : s.last_displayed_type = some "raster"
        · cases d <;> cases hr : s.raster_data <;>
            simp [export_displayed_data, hd, h1, h2, hr]
        · simp [export_displayed_data, hd, h1, h2]

/-! ## Claim theorems -/

/-- Claim C1: for equal-shaped arrays, calculate_ndvi red nir is the
element-wise (nir - red) / (nir + red), calculate_ndwi green nir the
element-wise (green - nir) / (green + nir), and calculate_ndbi swir
nir the element-wise (swir - nir) / (swir + nir), each preserving the
input shape, and every pixel with a zero denominator yields exactly 0
(the if-branch, not a division artifact). -/
theorem index_math_pointwise (red nir green swir : Array2)
    (h1 : sameShape red nir) (h2 : sameShape green nir)
    (h3 : sameShape swir nir) (i j : Nat)
    (hi : i < nir.length) (hj : j < (nir.getD i []).length) :
    sameShape (calculate_ndvi red nir) red ∧
    sameShape (calculate_ndwi green nir) green ∧
    sameShape (calculate_ndbi swir nir) swir ∧
    px (calculate_ndvi red nir) i j =
      (if px nir i j + px red i j = 0 then 0
       else (px nir i j - px red i j) / (px nir i j + px red i j)) ∧
    px (calculate_ndwi green nir) i j =
      (if px green i j + px nir i j = 0 then 0
       else (px green i j - px nir i j) / (px green i j + px nir i j)) ∧
    px (calculate_ndbi swir nir) i j =
      (if px swir i j + px nir i j = 0 then 0
       else (px swir i j - px nir i j) / (px swir i j + px nir i j)) := by
  refine ⟨map2_sameShape _ red nir h1, map2_sameShape _ green nir h2,
    map2_sameShape _ swir nir h3, ?_, ?_, ?_⟩
  · have hi2 : i < red.length := by rw [sameShape_length h1]; exact hi
    have hj2 : j < (red.getD i []).length := by
      rw [sameShape_row h1 i]; exact hj
    exact map2_px _ red nir h1 i j hi2 hj2
  · have hi2 : i < green.length := by rw [sameShape_length h2]; exact hi
    have hj2 : j < (green.getD i []).length := by
      rw [sameShape_row h2 i]; exact hj
    exact map2_px _ green nir h2 i j hi2 hj2
  · have hi2 : i < swir.length := by rw [sameShape_length h3]; exact hi
    have hj2 : j < (swir.getD i []).length := by
      rw [sameShape_row h3 i]; exact hj
    exact map2_px _ swir nir h3 i j hi2 hj2

/-- Claim C1 witness at the synthetic raster of the end-to-end
scenario: red = nir = band0 = [[1,2],[3,0]]; at pixel (1,1) both bands
are 0, the denominator is 0, and the theorem gives exactly 0 there. -/
theorem index_math_pointwise_witness :
    sameShape band0 band0 ∧ 1 < band0.length ∧
    1 < (band0.getD 1 []).length ∧
    (sameShape (calculate_ndvi band0 band0) band0 ∧
     sameShape (calculate_ndwi band0 band0) band0 ∧
     sameShape (calculate_ndbi band0 band0) band0 ∧
     px (calculate_ndvi band0 band0) 1 1 =
       (if px band0 1 1 + px band0 1 1 = 0 then 0
        else (px band0 1 1 - px band0 1 1) /
          (px band0 1 1 + px band0 1 1)) ∧
     px (calculate_ndwi band0 band0) 1 1 =
       (if px band0 1 1 + px band0 1 1 = 0 then 0
        else (px band0 1 1 - px band0 1 1) /
          (px band0 1 1 + px band0 1 1)) ∧
     px (calculate_ndbi band0 band0) 1 1 =
       (if px band0 1 1 + px band0 1 1 = 0 then 0
        else (px band0 1 1 - px band0 1 1) /
          (px band0 1 1 + px band0 1 1))) :=
  ⟨by decide, by decide, by decide,
   index_math_pointwise band0 band0 band0 band0 (by decide) (by decide)
     (by decide) 1 1 (by decide) (by decide)⟩

/-- Claim C10: calculate_ndwi and calculate_ndbi are extensionally
equal on all inputs: both compute the element-wise
(first - second) / (first + second) with 0 at zero denominators. -/
theorem ndwi_eq_ndbi (a b : Array2) :
    calculate_ndwi a b = calculate_ndbi a b := rfl

/-- Claim C2: with both a raster and a shapefile loaded, clip_raster
does not reach the reproject/filter/mask/store body at all: the
precondition on line 159 evaluates bool() of the loaded GeoDataFrame,
which raises ValueError outside the try block, so the handler raises
unhandled, shows no dialog and changes nothing. -/
theorem clip_raster_crashes_when_both_loaded :
    clip_raster bothLoaded =
      { state := bothLoaded, effects := [],
        raised := some (PyErr.valueError
          "The truth value of a DataFrame is ambiguous.") } := rfl

/-- Claim C4: invoking buffer_tool with no vector layer loaded does not
report a dialog: hasattr is True (the field is set in __init__), so
None.empty raises AttributeError outside the try block and the
exception escapes the handler; the state is unchanged but no error is
reported. Shown at the freshly initialised state. -/
theorem buffer_tool_crashes_when_no_layer :
    buffer_tool initState 5 true =
      { state := initState, effects := [],
        raised := some (PyErr.attributeError
          "NoneType object has no attribute empty") } := rfl

/-- Claim C6: clipping against a layer with zero valid geometries does
not produce a reported error dialog: the handler raises the same
unhandled ValueError at the precondition line before the validity
filter is ever reached; the displayed artifact is not replaced, but
only because nothing at all happens. -/
theorem clip_raster_zero_valid_geoms :
    (gdfInvalidOnly.geoms.filter (fun g => g.is_valid)).length = 0 ∧
    clip_raster rasterAndInvalidVector =
      { state := rasterAndInvalidVector, effects := [],
        raised := some (PyErr.valueError
          "The truth value of a DataFrame is ambiguous.") } :=
  ⟨rfl, rfl⟩

/-- Claim C3: with a non-empty vector layer loaded, a confirmed buffer
distance d ≤ 0 is rejected with the validation dialog; no geometry
library call of any kind appears among the effects, and the whole
session state, in particular the stored layer and the displayed
artifact, is unchanged. -/
theorem buffer_rejects_nonpositive (s : SessionState) (g : Gdf) (d : ℚ)
    (hg : s.gdf = some g) (hne : g.geoms ≠ []) (hd : d ≤ 0) :
    (buffer_tool s d true).state = s ∧
    (buffer_tool s d true).effects =
      [Effect.errorDialog "Invalid buffer distance."] ∧
    (buffer_tool s d true).raised = none ∧
    (buffer_tool s d true).effects.any Effect.isGeometryLibCall = false ∧
    (buffer_tool s d true).state.gdf = s.gdf ∧
    (buffer_tool s d true).state.last_displayed_data =
      s.last_displayed_data := by
  have hne2 : g.geoms.isEmpty = false := by
    cases hgg : g.geoms with
    | nil => exact absurd hgg hne
    | cons a as => rfl
  simp [buffer_tool, hg, hne2, hd, Effect.isGeometryLibCall]

/-- Claim C3 witness: a loaded one-feature layer and the rejected
distance 0. -/
theorem buffer_rejects_nonpositive_witness :
    vectorOnly.gdf = some gdf0 ∧ gdf0.geoms ≠ [] ∧ (0 : ℚ) ≤ 0 ∧
    ((buffer_tool vectorOnly 0 true).state = vectorOnly ∧
     (buffer_tool vectorOnly 0 true).effects =
       [Effect.errorDialog "Invalid buffer distance."] ∧
     (buffer_tool vectorOnly 0 true).raised = none ∧
     (buffer_tool vectorOnly 0 true).effects.any
       Effect.isGeometryLibCall = false ∧
     (buffer_tool vectorOnly 0 true).state.gdf = vectorOnly.gdf ∧
     (buffer_tool vectorOnly 0 true).state.last_displayed_data =
       vectorOnly.last_displayed_data) :=
  ⟨rfl, by decide, by decide,
   buffer_rejects_nonpositive vectorOnly gdf0 0 rfl (by decide) (by decide)⟩

/-- Claim C5 counterexample: with a one-band raster loaded, requesting
NDVI with the out-of-range red band 5 produces the effect trace
[libReadBand 5, errorDialog], i.e. the out-of-range band number is NOT
reported before a library call: the library read itself is the first
observable effect and the report follows it. -/
theorem index_report_not_before_lib_call :
    (calculate_index rasterOnly "NDVI" 5 1 1 1).effects =
      [Effect.libReadBand 5,
       Effect.errorDialog "Error calculating NDVI"] ∧
    (calculate_index rasterOnly "NDVI" 5 1 1 1).effects.head? ≠
      some (Effect.errorDialog "Error calculating NDVI") :=
  ⟨by decide, by decide⟩

/-- Claim C5 (amended): index computation does not pre-validate band
numbers — the read is attempted and its failure is caught by the
handler, which reports a dialog, leaves the state unchanged and raises
nothing; raster display, by contrast, rejects a non-positive band
number before any library read. -/
theorem index_band_errors_caught (s : SessionState) (r : RasterData)
    (rb nb gb sb b : Int) (er : PyErr)
    (hr : s.raster_data = some r) (hread : r.read rb = .error er)
    (hb : b ≤ 0) :
    (calculate_index s "NDVI" rb nb gb sb).raised = none ∧
    (calculate_index s "NDVI" rb nb gb sb).state = s ∧
    (calculate_index s "NDVI" rb nb gb sb).effects =
      [Effect.libReadBand rb,
       Effect.errorDialog "Error calculating NDVI"] ∧
    (display_raster s b true).raised = none ∧
    (display_raster s b true).state = s ∧
    (display_raster s b true).effects =
      [Effect.errorDialog "Invalid band number."] ∧
    (display_raster s b true).effects.any Effect.isLibRead = false := by
  refine ⟨?_, ?_, ?_, ?_, ?_, ?_, ?_⟩ <;>
    simp [calculate_index, display_raster, runIndexBranch, hr, hread, hb,
      Effect.isLibRead]

/-- Claim C5 witness: the one-band raster, out-of-range band 5 for the
index, band 0 for display. -/
theorem index_band_errors_caught_witness :
    rasterOnly.raster_data = some raster0 ∧
    raster0.read 5 = .error (PyErr.indexError "band index out of range") ∧
    (0 : Int) ≤ 0 ∧
    ((calculate_index rasterOnly "NDVI" 5 1 1 1).raised = none ∧
     (calculate_index rasterOnly "NDVI" 5 1 1 1).state = rasterOnly ∧
     (calculate_index rasterOnly "NDVI" 5 1 1 1).effects =
       [Effect.libReadBand 5,
        Effect.errorDialog "Error calculating NDVI"] ∧
     (display_raster rasterOnly 0 true).raised = none ∧
     (display_raster rasterOnly 0 true).state = rasterOnly ∧
     (display_raster rasterOnly 0 true).effects =
       [Effect.errorDialog "Invalid band number."] ∧
     (display_raster rasterOnly 0 true).effects.any
       Effect.isLibRead = false) :=
  ⟨rfl, rfl, by decide,
   index_band_errors_caught rasterOnly raster0 5 1 1 1 0
     (PyErr.indexError "band index out of range") rfl rfl
     (by decide)⟩

/-- Claim C7: when no artifact has ever been produced
(last_displayed_data is still None), export reports the
nothing-to-export dialog, changes nothing, raises nothing, and no
file-writing effect occurs, whatever the save dialog would return. -/
theorem export_nothing_to_export (s : SessionState) (fp : Option String)
    (h : s.last_displayed_data = none) :
    (export_displayed_data s fp).state = s ∧
    (export_displayed_data s fp).effects =
      [Effect.errorDialog "No data available to export."] ∧
    (export_displayed_data s fp).raised = none ∧
    (export_displayed_data s fp).effects.any Effect.writesFile = false := by
  simp [export_displayed_data, h, Effect.writesFile]

/-- Claim C7 witness: the freshly initialised session, with a file path
already chosen. -/
theorem export_nothing_to_export_witness :
    initState.last_displayed_data = none ∧
    ((export_displayed_data initState (some "out.tif")).state = initState ∧
     (export_displayed_data initState (some "out.tif")).effects =
       [Effect.errorDialog "No data available to export."] ∧
     (export_displayed_data initState (some "out.tif")).raised = none ∧
     (export_displayed_data initState (some "out.tif")).effects.any
       Effect.writesFile = false) :=
  ⟨rfl, export_nothing_to_export initState (some "out.tif") rfl⟩

/-- Claim C8: exporting a raster-tagged artifact writes a single-band
GeoTIFF (count 1) whose CRS and geotransform are read from the
currently loaded raster handle — the artifact itself carries no
georeference (clip stored only the pixel array and discarded the mask
transform), so for any artifact array, clipped or not, the written CRS
and transform are the original raster ones. -/
theorem export_raster_uses_original_georeference (s : SessionState)
    (a : Array2) (r : RasterData) (fp : String)
    (hd : s.last_displayed_data = some (PyData.arr a))
    (ht : s.last_displayed_type = some "raster")
    (hr : s.raster_data = some r) :
    export_displayed_data s (some fp) =
      { state := s,
        effects := [Effect.fileWriteGeoTiff fp 1 r.crs r.transform a,
          Effect.infoDialog ("Data exported successfully to " ++ fp)],
        raised := none } := by
  simp [export_displayed_data, hd, ht, hr]

/-- Claim C8 witness: a 1x1 artifact (the shape a clip would produce,
differing from the full raster) exported against the sample raster:
the written georeference is crsA / tr0, the raster originals. -/
theorem export_raster_georeference_witness :
    rasterArtifactState.last_displayed_data = some (PyData.arr [[5]]) ∧
    rasterArtifactState.last_displayed_type = some "raster" ∧
    rasterArtifactState.raster_data = some raster0 ∧
    export_displayed_data rasterArtifactState (some "out.tif") =
      { state := rasterArtifactState,
        effects := [Effect.fileWriteGeoTiff "out.tif" 1 raster0.crs
          raster0.transform [[5]],
          Effect.infoDialog ("Data exported successfully to " ++ "out.tif")],
        raised := none } :=
  ⟨rfl, rfl, rfl,
   export_raster_uses_original_georeference rasterArtifactState [[5]]
     raster0 "out.tif" rfl rfl rfl⟩

/-- Claim C9 counterexample: buffering the loaded layer at distance 2
leaves the stored layer exactly as it was — it does NOT become the
layer with the buffered geometry column (which instead becomes the
displayed artifact, built from a copy). -/
theorem buffer_does_not_mutate_stored_layer :
    (buffer_tool vectorOnly 2 true).state.gdf = some gdf0 ∧
    gdf0Buffered ≠ gdf0 ∧
    (buffer_tool vectorOnly 2 true).state.gdf ≠ some gdf0Buffered ∧
    (buffer_tool vectorOnly 2 true).state.last_displayed_data =
      some (PyData.gdfData gdf0Buffered) := by decide

/-- Claim C9 (amended): no handler mutates or reassigns the stored
vector layer except a load, which replaces it wholesale; the buffer
operation in particular leaves it untouched and stores the buffered
copy as the displayed artifact. -/
theorem stored_layer_only_replaced_on_load (s : SessionState)
    (g g2 : Gdf) (d : ℚ) (ok : Bool) (t fn : String)
    (rb nb gb sb b : Int) (o : Bool) (fp : Option String)
    (hg : s.gdf = some g) (hne : g.geoms ≠ []) (hd : 0 < d) :
    (buffer_tool s d true).state.gdf = s.gdf ∧
    (buffer_tool s d true).state.last_displayed_data =
      some (PyData.gdfData
        { g with geoms := g.geoms.map (fun gm => gm.buffer d) }) ∧
    (buffer_tool s d ok).state.gdf = s.gdf ∧
    (clip_raster s).state.gdf = s.gdf ∧
    (calculate_index s t rb nb gb sb).state.gdf = s.gdf ∧
    (display_raster s b o).state.gdf = s.gdf ∧
    (export_displayed_data s fp).state.gdf = s.gdf ∧
    (upload_shapefile s (some fn) (.ok g2)).state.gdf = some g2 := by
  have hne2 : g.geoms.isEmpty = false := by
    cases hgg : g.geoms with
    | nil => exact absurd hgg hne
    | cons a as => rfl
  have hd2 : ¬d ≤ 0 := not_le.mpr hd
  refine ⟨buffer_tool_gdf s d true, ?_, buffer_tool_gdf s d ok,
    by rw [clip_raster_state], calculate_index_gdf s t rb nb gb sb,
    display_raster_gdf s b o, by rw [export_state], ?_⟩
  · simp [buffer_tool, hg, hne2, hd2]
  · simp [upload_shapefile]

/-- Claim C9 witness: the amended statement at the sample layer,
distance 2, and a fresh layer loaded by upload. -/
theorem stored_layer_only_replaced_on_load_witness :
    vectorOnly.gdf = some gdf0 ∧ gdf0.geoms ≠ [] ∧ (0 : ℚ) < 2 ∧
    ((buffer_tool vectorOnly 2 true).state.gdf = vectorOnly.gdf ∧
     (buffer_tool vectorOnly 2 true).state.last_displayed_data =
       some (PyData.gdfData
         { gdf0 with geoms := gdf0.geoms.map (fun gm => gm.buffer 2) }) ∧
     (buffer_tool vectorOnly 2 false).state.gdf = vectorOnly.gdf ∧
     (clip_raster vectorOnly).state.gdf = vectorOnly.gdf ∧
     (calculate_index vectorOnly "NDVI" 1 1 1 1).state.gdf =
       vectorOnly.gdf ∧
     (display_raster vectorOnly 1 true).state.gdf = vectorOnly.gdf ∧
     (export_displayed_data vectorOnly none).state.gdf = vectorOnly.gdf ∧
     (upload_shapefile vectorOnly (some "new.shp")
       (.ok gdfInvalidOnly)).state.gdf = some gdfInvalidOnly) :=
  ⟨rfl, by decide, by decide,
   stored_layer_only_replaced_on_load vectorOnly gdf0 gdfInvalidOnly 2
     false "NDVI" "new.shp" 1 1 1 1 1 true none rfl (by decide)
     (by decide)⟩

end IndicesCalc
